import Mathlib

/-!
Verification development for the Trading Analytics Dashboard repository.

The frontend (React) sources are embedded directly: each definition mirrors
one function or JSX expression of the cited component.  The Python backend
services (analytics, filter engine, chat grounding) are not among the
available sources; where a claim depends on them the corresponding
definition is modelled from the specification text and marked as such in
its doc comment.

JavaScript values relevant to the embedded logic are modelled by `JSVal`
(strings, rationals for numbers, `null`, `undefined`); JavaScript number
results that can be `NaN` or infinite (division) are modelled by
`JSNumber`.
-/

/-- A JavaScript scalar value as it appears in the embedded frontend logic:
a string, a (finite) number, `null`, or `undefined`. -/
inductive JSVal where
  | null : JSVal
  | undef : JSVal
  | str : String → JSVal
  | num : ℚ → JSVal
deriving DecidableEq

/-- JavaScript truthiness of a `JSVal`: `null`, `undefined`, the empty
string and the number `0` are falsy; every other value is truthy. -/
def truthy : JSVal → Bool
  | JSVal.null => false
  | JSVal.undef => false
  | JSVal.str s => !(s == "")
  | JSVal.num q => !(q == 0)

/-- The JavaScript `||` operator on values: returns the left operand when
it is truthy, otherwise the right operand. -/
def jsOr (a b : JSVal) : JSVal :=
  if truthy a then a else b

/-- A JavaScript object, modelled as an association list from property
names to values. -/
abbrev JSObj := List (String × JSVal)

/-- Property access `o[k]` on a JavaScript object: the stored value when
the key is present, `undefined` otherwise. -/
def jget (o : JSObj) (k : String) : JSVal :=
  (o.lookup k).getD JSVal.undef

/-- A JavaScript number result that may be `NaN` or infinite. -/
inductive JSNumber where
  | nan : JSNumber
  | posInf : JSNumber
  | negInf : JSNumber
  | num : ℚ → JSNumber
deriving DecidableEq

/-- JavaScript floating-point division `a / b` on finite operands:
`0 / 0` is `NaN`, `a / 0` for nonzero `a` is a signed infinity, otherwise
the exact quotient. -/
def jsDiv (a b : ℚ) : JSNumber :=
  if b = 0 then
    if a = 0 then JSNumber.nan
    else if 0 < a then JSNumber.posInf
    else JSNumber.negInf
  else JSNumber.num (a / b)

/-- JavaScript multiplication of a number result by a finite constant `c`;
`NaN` is absorbing, infinities follow the sign rules. -/
def jsScale (c : ℚ) : JSNumber → JSNumber
  | JSNumber.nan => JSNumber.nan
  | JSNumber.posInf =>
      if 0 < c then JSNumber.posInf
      else if c = 0 then JSNumber.nan
      else JSNumber.negInf
  | JSNumber.negInf =>
      if 0 < c then JSNumber.negInf
      else if c = 0 then JSNumber.nan
      else JSNumber.posInf
  | JSNumber.num q => JSNumber.num (c * q)

/-- A canonical stock record as held in the backend snapshot.  Enumerated
fields are kept as strings, matching the spreadsheet-derived data the
system actually carries; optional numerics are `Option ℚ`. -/
structure StockRecord where
  symbol : String
  trend : String
  trend_strength : String
  volatility : String
  sentiment_text : String
  sentiment_score : Option ℚ
  adx : Option ℚ
deriving DecidableEq

/-- Case-insensitive string equality, used for enum comparisons. -/
def ciEq (a b : String) : Bool :=
  a.toLower == b.toLower

/-- `cleanFilters` as built by `fetchStocks` in `App.jsx` (lines 80 to 86):
every key of the filters object is kept exactly when its value is neither
the empty string nor `null`. -/
def cleanFilters (fs : JSObj) : JSObj :=
  fs.filter (fun kv => !(kv.2 == JSVal.str "") && !(kv.2 == JSVal.null))

/-- `activeFiltersCount` from the Filters component (part_000, line 13):
the number of values of the filters object that are neither the empty
string nor `null`. -/
def activeFiltersCount (fs : JSObj) : Nat :=
  ((fs.map Prod.snd).filter
    (fun v => !(v == JSVal.str "") && !(v == JSVal.null))).length

/-- The reset filters object built by `handleResetFilters` in `App.jsx`
(lines 101 to 111): every field set to the empty string or `null`. -/
def resetFiltersObj : JSObj :=
  [("trend", JSVal.str ""), ("trend_strength", JSVal.str ""),
   ("volatility", JSVal.str ""), ("min_sentiment", JSVal.null),
   ("min_adx", JSVal.null)]

/-- Modelled from the spec: the backend Filter Engine (section 4.4,
`services/analytics.py` `filter_stocks`, not among the sources) evaluates
one criteria entry against a record.  Enum comparisons are
case-insensitive; numeric lower bounds are inclusive and a record whose
field is null fails the bound.  An entry whose value has an unexpected
shape, or an unknown key, imposes no constraint. -/
def matchesEntry (r : StockRecord) (kv : String × JSVal) : Bool :=
  if kv.1 == "trend" then
    match kv.2 with
    | JSVal.str s => ciEq r.trend s
    | _ => true
  else if kv.1 == "trend_strength" then
    match kv.2 with
    | JSVal.str s => ciEq r.trend_strength s
    | _ => true
  else if kv.1 == "volatility" then
    match kv.2 with
    | JSVal.str s => ciEq r.volatility s
    | _ => true
  else if kv.1 == "sentiment" then
    match kv.2 with
    | JSVal.str s => ciEq r.sentiment_text s
    | _ => true
  else if kv.1 == "min_sentiment" then
    match kv.2 with
    | JSVal.num q =>
        match r.sentiment_score with
        | some x => decide (q ≤ x)
        | none => false
    | _ => true
  else if kv.1 == "min_adx" then
    match kv.2 with
    | JSVal.num q =>
        match r.adx with
        | some x => decide (q ≤ x)
        | none => false
    | _ => true
  else true

/-- Modelled from the spec: the backend Filter Engine applies all present
criteria entries AND-combined, preserving snapshot order (section 4.4). -/
def applyFilters (snap : List StockRecord) (crit : JSObj) : List StockRecord :=
  snap.filter (fun r => crit.all (matchesEntry r))

/-- ADX value of a record with null read as `0`, used by the composite
ranking. -/
def adxVal (r : StockRecord) : ℚ :=
  r.adx.getD 0

/-- Sentiment value of a record with null read as `0`, used by the
composite ranking. -/
def sentVal (r : StockRecord) : ℚ :=
  r.sentiment_score.getD 0

/-- Modelled from the spec: the composite performance score is a weighted
combination of ADX and sentiment score (section 4.3); the exact weights
are an open design choice (section 9), pinned here as unit weights. -/
def compositeScore (r : StockRecord) : ℚ :=
  adxVal r + sentVal r

/-- Ranking key for top performers: lexicographically, descending
composite score (encoded by negation), then descending ADX, then
ascending symbol. -/
abbrev PerfKey := Lex (ℚ × Lex (ℚ × String))

/-- The ranking key of one record. -/
def perfKey (r : StockRecord) : PerfKey :=
  toLex (-(compositeScore r), toLex (-(adxVal r), r.symbol))

/-- Boolean ranking relation used to sort top performers. -/
def perfLe (a b : StockRecord) : Bool :=
  decide (perfKey a ≤ perfKey b)

/-- Modelled from the spec: `top_performers` ranks the snapshot by the
composite score with the deterministic tie-break (higher ADX first, then
symbol ascending) and keeps the top five (section 4.3). -/
def topPerformers (snap : List StockRecord) : List StockRecord :=
  (snap.mergeSort perfLe).take 5

/-- Records of the snapshot that carry a non-null sentiment score. -/
def sentimentScores (snap : List StockRecord) : List ℚ :=
  snap.filterMap StockRecord.sentiment_score

/-- Modelled from the spec: average sentiment is the arithmetic mean over
records with a non-null sentiment score, defined as `0` when there are
none (section 4.3); the emptiness test guards the division. -/
def avgSentiment (snap : List StockRecord) : ℚ :=
  let s := sentimentScores snap
  if s.isEmpty then 0 else s.sum / (s.length : ℚ)

/-- Modelled from the spec: the explicit no-data flag accompanying
`avg_sentiment` when no record has a sentiment score (section 4.3). -/
def sentimentNoData (snap : List StockRecord) : Bool :=
  (sentimentScores snap).isEmpty

/-- Number of records of the snapshot whose trend equals `t`
(case-insensitive). -/
def countTrend (snap : List StockRecord) (t : String) : Nat :=
  (snap.filter (fun r => ciEq r.trend t)).length

/-- Number of records whose trend strength equals `t` (case-insensitive). -/
def countStrength (snap : List StockRecord) (t : String) : Nat :=
  (snap.filter (fun r => ciEq r.trend_strength t)).length

/-- Number of records whose volatility equals `t` (case-insensitive). -/
def countVolatility (snap : List StockRecord) (t : String) : Nat :=
  (snap.filter (fun r => ciEq r.volatility t)).length

/-- The analytics summary served to the Dashboard. -/
structure AnalyticsSummary where
  total_stocks : Nat
  uptrend_count : Nat
  downtrend_count : Nat
  strong_trends : Nat
  high_volatility_count : Nat
  avg_sentiment : ℚ
  sentiment_no_data : Bool
  top_performers : List StockRecord
deriving DecidableEq

/-- Modelled from the spec: `summarize` computes the counts, the guarded
average sentiment with its no-data flag, and the ranked top performers
over one snapshot (section 4.3; backend `services/analytics.py`
`calculate_summary` is not among the sources). -/
def summarize (snap : List StockRecord) : AnalyticsSummary :=
  { total_stocks := snap.length
    uptrend_count := countTrend snap "uptrend"
    downtrend_count := countTrend snap "downtrend"
    strong_trends := countStrength snap "strong"
    high_volatility_count := countVolatility snap "high"
    avg_sentiment := avgSentiment snap
    sentiment_no_data := sentimentNoData snap
    top_performers := topPerformers snap }

/-- The uptrend share rendered by `Dashboard.jsx` line 97:
`(analytics.uptrend_count / analytics.total_stocks) * 100`, with
JavaScript division semantics and no zero guard. -/
def uptrendSharePct (a : AnalyticsSummary) : JSNumber :=
  jsScale 100 (jsDiv (a.uptrend_count : ℚ) (a.total_stocks : ℚ))

/-- The downtrend share rendered by `Dashboard.jsx` line 111. -/
def downtrendSharePct (a : AnalyticsSummary) : JSNumber :=
  jsScale 100 (jsDiv (a.downtrend_count : ℚ) (a.total_stocks : ℚ))

/-- The strong-trends share rendered by `Dashboard.jsx` line 195. -/
def strongTrendsSharePct (a : AnalyticsSummary) : JSNumber :=
  jsScale 100 (jsDiv (a.strong_trends : ℚ) (a.total_stocks : ℚ))

/-- The high-volatility share rendered by `Dashboard.jsx` line 203. -/
def highVolSharePct (a : AnalyticsSummary) : JSNumber :=
  jsScale 100 (jsDiv (a.high_volatility_count : ℚ) (a.total_stocks : ℚ))

/-- One bar of the Top Performers chart: `Dashboard.jsx` lines 58 to 62
project each ranked record to its symbol, score and ADX. -/
structure ChartPoint where
  name : String
  score : ℚ
  adx : Option ℚ
deriving DecidableEq

/-- Projection of one ranked record to its chart bar; the serialized
`score` field carried by the API is the composite score the backend
ranked by. -/
def toChartPoint (r : StockRecord) : ChartPoint :=
  { name := r.symbol, score := compositeScore r, adx := r.adx }

/-- `topPerformersData` from `Dashboard.jsx` lines 58 to 62:
`analytics.top_performers?.slice(0, 5).map(...) || []`.  A missing list
yields `[]`; otherwise the first five elements are projected in order. -/
def topPerformersData (tp : Option (List StockRecord)) : List ChartPoint :=
  match tp with
  | none => []
  | some l => (l.take 5).map toChartPoint

/-- One message of the chat conversation, as kept by
`ChatInterface.jsx`: a role, a text content, and the optional list of
stock records attached to an assistant answer. -/
structure ChatMessage where
  role : String
  content : String
  data : Option (List JSObj)
deriving DecidableEq

/-- The successful payload of `apiService.chat`: the answer text and the
relevant records. -/
structure ChatResponseData where
  response : String
  data : List JSObj
deriving DecidableEq

/-- Whitespace-stripping of a character list at both ends, the semantics
of the JavaScript `trim` used on the chat input. -/
def trimChars (cs : List Char) : List Char :=
  ((cs.dropWhile Char.isWhitespace).reverse.dropWhile Char.isWhitespace).reverse

/-- JavaScript `input.trim()` on the embedded strings. -/
def jsTrim (s : String) : String :=
  String.mk (trimChars s.data)

/-- The fixed error text appended by `ChatInterface.jsx` line 67 when the
chat API call rejects. -/
def chatErrorText : String :=
  "Sorry, I encountered an error. Please make sure the backend is running and you\x27ve synced the data."

/-- `handleSend` from `ChatInterface.jsx` lines 40 to 73: an empty
trimmed input is ignored; otherwise the trimmed user message is appended,
then on success one assistant message carrying the response and its data,
and on failure one assistant message carrying the fixed error text and no
data. -/
def handleSend (msgs : List ChatMessage) (input : String)
    (apiResult : Except Unit ChatResponseData) : List ChatMessage :=
  if jsTrim input == "" then msgs
  else
    match apiResult with
    | Except.ok r =>
        msgs ++ [{ role := "user", content := jsTrim input, data := none },
                 { role := "assistant", content := r.response, data := some r.data }]
    | Except.error _ =>
        msgs ++ [{ role := "user", content := jsTrim input, data := none },
                 { role := "assistant", content := chatErrorText, data := none }]

/-- The record-rendering condition of `ChatInterface.jsx` line 124:
`message.data && message.data.length > 0`. -/
def showsRecords {α : Type} (d : Option (List α)) : Bool :=
  match d with
  | none => false
  | some l => decide (0 < l.length)

/-- Alphanumeric tokens of a character list: maximal runs of alphanumeric
characters, in order. -/
def tokensAux : List Char → List Char → List (List Char)
  | [], acc => if acc.isEmpty then [] else [acc.reverse]
  | c :: rest, acc =>
      if c.isAlphanum then tokensAux rest (c :: acc)
      else if acc.isEmpty then tokensAux rest []
      else acc.reverse :: tokensAux rest []

/-- Modelled from the spec: a record symbol matches the answer text when
it occurs as a verbatim, case-insensitive, whole-token match
(section 4.5; backend `services/ai_chat.py` is not among the sources). -/
def wholeTokenMatch (answer sym : String) : Bool :=
  ((tokensAux answer.toList []).map (fun t => t.map Char.toUpper)).contains
    (sym.toList.map Char.toUpper)

/-- Modelled from the spec: the display cap for relevance extraction is an
unspecified magic number (section 9), pinned here as ten. -/
def displayCap : Nat := 10

/-- Modelled from the spec: relevance extraction scans the answer text for
whole-token symbol matches over the full snapshot, returns the matched
records in snapshot order capped at the display limit, and falls back to
the grounding candidate subset when zero symbols match (section 4.5). -/
def extractRelevant (answer : String) (snap candidates : List StockRecord) :
    List StockRecord :=
  let matched := (snap.filter (fun r => wholeTokenMatch answer r.symbol)).take displayCap
  if matched.isEmpty then candidates else matched

/-- Resolution of the ADX property in `StockCard.jsx` line 109:
`stock.ADX || stock['ADX '] || stock.adx`. -/
def resolvedAdx (s : JSObj) : JSVal :=
  jsOr (jget s "ADX") (jsOr (jget s "ADX ") (jget s "adx"))

/-- The ADX-cell rendering condition of `StockCard.jsx` line 168: the cell
is rendered exactly when the resolved ADX value is truthy. -/
def showAdxCell (s : JSObj) : Bool :=
  truthy (resolvedAdx s)

/-- One alert as displayed by `AlertsList.jsx`; `alertTime` is the parsed
timestamp of `Alert_Time` when the field is present, `none` when the
field is missing. -/
structure Alert where
  symbol : String
  indicator : String
  alertTime : Option Int
deriving DecidableEq

/-- The sort key used by `fetchAlerts` in `AlertsList.jsx` lines 18 to 22:
`new Date(a.Alert_Time || 0).getTime()`, so a missing `Alert_Time` is the
Unix epoch `0`. -/
def timeOf (a : Alert) : Int :=
  a.alertTime.getD 0

/-- Comparator of `fetchAlerts`: `dateB - dateA`, i.e. descending parsed
time (newest first). -/
def alertDescLe (a b : Alert) : Bool :=
  decide (timeOf b ≤ timeOf a)

/-- The sorted alert list displayed by `AlertsList.jsx`: the fetched
alerts sorted newest first. -/
def sortAlertsDesc (l : List Alert) : List Alert :=
  l.mergeSort alertDescLe

/-- Concrete record used in witnesses: an uptrend stock with symbol XYZ. -/
def recXYZ : StockRecord :=
  { symbol := "XYZ", trend := "uptrend", trend_strength := "strong",
    volatility := "high", sentiment_text := "bullish",
    sentiment_score := some (1/2), adx := some 30 }

/-- Concrete record used in witnesses: a downtrend stock with symbol ABC. -/
def recABC : StockRecord :=
  { symbol := "ABC", trend := "downtrend", trend_strength := "weak",
    volatility := "low", sentiment_text := "bearish",
    sentiment_score := some (-(1/5)), adx := some 12 }

/-- Concrete stock object used for the ADX-cell claim: lowercase `adx`
key holding the number `0`. -/
def stockAdxZero : JSObj :=
  [("symbol", JSVal.str "AAA"), ("adx", JSVal.num 0)]

/-- Concrete stock object used for the ADX-cell claim: no ADX key at
all. -/
def stockNoAdx : JSObj :=
  [("symbol", JSVal.str "AAA")]

/-- Concrete stock object used for the ADX-cell claim: lowercase `adx`
key holding the number `30`. -/
def stockAdxThirty : JSObj :=
  [("symbol", JSVal.str "AAA"), ("adx", JSVal.num 30)]

theorem perfLe_trans :
    ∀ a b c : StockRecord, perfLe a b = true → perfLe b c = true →
      perfLe a c = true := by
  intro a b c hab hbc
  simp only [perfLe, decide_eq_true_eq] at hab hbc ⊢
  exact le_trans hab hbc

theorem perfLe_total :
    ∀ a b : StockRecord, (perfLe a b || perfLe b a) = true := by
  intro a b
  simp only [perfLe, Bool.or_eq_true, decide_eq_true_eq]
  exact le_total _ _

theorem alertDescLe_trans :
    ∀ a b c : Alert, alertDescLe a b = true → alertDescLe b c = true →
      alertDescLe a c = true := by
  intro a b c hab hbc
  simp only [alertDescLe, decide_eq_true_eq] at hab hbc ⊢
  exact le_trans hbc hab

theorem alertDescLe_total :
    ∀ a b : Alert, (alertDescLe a b || alertDescLe b a) = true := by
  intro a b
  simp only [alertDescLe, Bool.or_eq_true, decide_eq_true_eq]
  exact le_total _ _

theorem filter_map_snd_length {α β : Type} (p : β → Bool) :
    ∀ l : List (α × β),
      ((l.map Prod.snd).filter p).length = (l.filter (fun kv => p kv.2)).length := by
  intro l
  induction l with
  | nil => rfl
  | cons kv rest ih =>
      simp only [List.map_cons, List.filter_cons]
      cases h : p kv.2 <;> simp [h, ih]

/-- C1: the Dashboard shares are not defined as `0` when
`total_stocks == 0`; the unguarded JavaScript division `0 / 0` makes each
displayed share `NaN` on the empty analytics summary, a division-by-zero
artifact rather than `0`. -/
theorem dashboard_share_division_by_zero_nan :
    uptrendSharePct (summarize []) = JSNumber.nan ∧
    downtrendSharePct (summarize []) = JSNumber.nan ∧
    strongTrendsSharePct (summarize []) = JSNumber.nan ∧
    highVolSharePct (summarize []) = JSNumber.nan ∧
    JSNumber.nan ≠ JSNumber.num 0 := by
  refine ⟨?_, ?_, ?_, ?_, by decide⟩ <;> rfl

/-- C2: `summarize` on the empty snapshot returns `total_stocks = 0`,
`avg_sentiment = 0` with the no-data flag set, and
`top_performers = []`; the average is produced by the emptiness guard,
not by a division. -/
theorem summarize_empty_snapshot :
    summarize [] =
      { total_stocks := 0, uptrend_count := 0, downtrend_count := 0,
        strong_trends := 0, high_volatility_count := 0, avg_sentiment := 0,
        sentiment_no_data := true, top_performers := [] } := by
  simp [summarize, countTrend, countStrength, countVolatility, avgSentiment,
    sentimentScores, sentimentNoData, topPerformers, List.mergeSort_nil]

/-- C7: the reset filters object cleans to the empty criteria object, and
the empty criteria is the identity filter on every snapshot. -/
theorem reset_filters_empty_criteria_identity :
    cleanFilters resetFiltersObj = [] ∧
    (∀ snap : List StockRecord, applyFilters snap [] = snap) := by
  constructor
  · rfl
  · intro snap
    simp [applyFilters]

/-- C9: the active-filter count shown by the Filters component equals the
number of entries of the cleaned criteria built by `fetchStocks`, for
every filters object: both keep exactly the values that are neither the
empty string nor null. -/
theorem active_filter_count_matches_clean_filters :
    ∀ fs : JSObj, activeFiltersCount fs = (cleanFilters fs).length :=
  fun fs => filter_map_snd_length _ fs

/-- C4: the cleaned criteria contains a key-value pair exactly when the
filters object contains it with a value that is neither the empty string
nor null, and the modelled filter engine combines all retained criteria
entries conjunctively over the snapshot. -/
theorem clean_filters_membership_and_conjunctive_apply :
    (∀ (fs : JSObj) (k : String) (v : JSVal),
      (k, v) ∈ cleanFilters fs ↔
        ((k, v) ∈ fs ∧ v ≠ JSVal.str "" ∧ v ≠ JSVal.null)) ∧
    (∀ (snap : List StockRecord) (crit : JSObj) (r : StockRecord),
      r ∈ applyFilters snap crit ↔
        (r ∈ snap ∧ ∀ kv ∈ crit, matchesEntry r kv = true)) := by
  constructor
  · intro fs k v
    simp [cleanFilters, List.mem_filter, and_assoc]
  · intro snap crit r
    simp [applyFilters, List.mem_filter, List.all_eq_true]

theorem perfLe_iff : ∀ a b : StockRecord, perfLe a b = true ↔
    (compositeScore b < compositeScore a ∨
      (compositeScore a = compositeScore b ∧
        (adxVal b < adxVal a ∨ (adxVal a = adxVal b ∧ a.symbol ≤ b.symbol)))) := by
  intro a b
  simp only [perfLe, perfKey, decide_eq_true_eq, Prod.Lex.le_iff,
    neg_lt_neg_iff, neg_inj]

/-- C3: when the chat API call rejects, `handleSend` appends the trimmed
user message and exactly one assistant message carrying the fixed error
text and no attached records; every earlier message of the conversation
is left unchanged. -/
theorem chat_error_appends_single_assistant_message
    (msgs : List ChatMessage) (input : String) (h : jsTrim input ≠ "") :
    handleSend msgs input (Except.error ()) =
      msgs ++ [{ role := "user", content := jsTrim input, data := none },
               { role := "assistant", content := chatErrorText, data := none }] ∧
    ((handleSend msgs input (Except.error ())).filter
        (fun m => m.role == "assistant")).length =
      (msgs.filter (fun m => m.role == "assistant")).length + 1 ∧
    (handleSend msgs input (Except.error ())).take msgs.length = msgs := by
  have hbeq : (jsTrim input == "") = false := by simpa using h
  refine ⟨?_, ?_, ?_⟩
  · simp [handleSend, hbeq]
  · simp [handleSend, hbeq, List.filter_append]
  · simp [handleSend, hbeq, List.take_left]

/-- Witness for C3 at the concrete input `"hi"` on the empty
conversation. -/
theorem chat_error_appends_single_assistant_message_witness :
    jsTrim "hi" ≠ "" ∧
    (handleSend ([] : List ChatMessage) "hi" (Except.error ()) =
      [] ++ [{ role := "user", content := jsTrim "hi", data := none },
             { role := "assistant", content := chatErrorText, data := none }] ∧
    ((handleSend ([] : List ChatMessage) "hi" (Except.error ())).filter
        (fun m => m.role == "assistant")).length =
      (([] : List ChatMessage).filter (fun m => m.role == "assistant")).length + 1 ∧
    (handleSend ([] : List ChatMessage) "hi" (Except.error ())).take
        ([] : List ChatMessage).length = ([] : List ChatMessage)) :=
  ⟨by decide, chat_error_appends_single_assistant_message [] "hi" (by decide)⟩

/-- C5: the Top Performers chart data is the projection of at most the
first five ranked records in their given order, and the modelled upstream
ranking has length at most five and is ordered by descending composite
score with ties broken by descending ADX then ascending symbol. -/
theorem top_performers_chart_take_five_sorted :
    (∀ l : List StockRecord,
      topPerformersData (some l) = (l.take 5).map toChartPoint) ∧
    topPerformersData none = [] ∧
    (∀ tp : Option (List StockRecord), (topPerformersData tp).length ≤ 5) ∧
    (∀ snap : List StockRecord, (topPerformers snap).length ≤ 5) ∧
    (∀ snap : List StockRecord,
      List.Pairwise (fun a b => perfLe a b = true) (topPerformers snap)) ∧
    (∀ a b : StockRecord, perfLe a b = true ↔
      (compositeScore b < compositeScore a ∨
        (compositeScore a = compositeScore b ∧
          (adxVal b < adxVal a ∨ (adxVal a = adxVal b ∧ a.symbol ≤ b.symbol))))) ∧
    (∀ snap : List StockRecord,
      topPerformersData (some (topPerformers snap)) =
        (topPerformers snap).map toChartPoint) := by
  refine ⟨fun l => rfl, rfl, ?_, ?_, ?_, perfLe_iff, ?_⟩
  · intro tp
    cases tp with
    | none => simp [topPerformersData]
    | some l =>
        simp only [topPerformersData, List.length_map, List.length_take]
        omega
  · intro snap
    simp only [topPerformers, List.length_take]
    omega
  · intro snap
    exact List.Pairwise.sublist (List.take_sublist 5 _)
      (@List.sorted_mergeSort StockRecord perfLe perfLe_trans perfLe_total snap)
  · intro snap
    simp [topPerformersData, topPerformers, List.take_take]

/-- C6: when zero record symbols match the answer text, the modelled
relevance extraction returns the grounding candidate subset, so a
non-empty candidate subset yields a non-empty attached record list, which
the chat UI condition then renders. -/
theorem extract_relevant_zero_match_fallback
    (answer : String) (snap candidates : List StockRecord)
    (h : ∀ r ∈ snap, wholeTokenMatch answer r.symbol = false) :
    extractRelevant answer snap candidates = candidates ∧
    (candidates ≠ [] → extractRelevant answer snap candidates ≠ []) ∧
    (candidates ≠ [] →
      showsRecords (some (extractRelevant answer snap candidates)) = true) := by
  have hf : snap.filter (fun r => wholeTokenMatch answer r.symbol) = [] := by
    apply List.filter_eq_nil_iff.mpr
    intro r hr
    simp [h r hr]
  have he : extractRelevant answer snap candidates = candidates := by
    simp [extractRelevant, hf]
  refine ⟨he, ?_, ?_⟩
  · intro hc
    rw [he]
    exact hc
  · intro hc
    rw [he]
    cases candidates with
    | nil => exact absurd rfl hc
    | cons a t => simp [showsRecords]

/-- Witness for C6: the answer text mentions no symbol of the snapshot,
and the candidate subset is returned and rendered. -/
theorem extract_relevant_zero_match_fallback_witness :
    (∀ r ∈ [recXYZ], wholeTokenMatch "hello there" r.symbol = false) ∧
    (extractRelevant "hello there" [recXYZ] [recABC] = [recABC] ∧
     ([recABC] ≠ ([] : List StockRecord) →
       extractRelevant "hello there" [recXYZ] [recABC] ≠ []) ∧
     ([recABC] ≠ ([] : List StockRecord) →
       showsRecords (some (extractRelevant "hello there" [recXYZ] [recABC])) = true)) :=
  ⟨by decide,
   extract_relevant_zero_match_fallback "hello there" [recXYZ] [recABC] (by decide)⟩

/-- C8: the StockCard ADX cell is rendered exactly when the resolved ADX
value is truthy; a numeric ADX of `0` is falsy, so a record with
`adx = 0` shows no ADX cell, exactly like a record with no ADX key, while
a nonzero ADX shows the cell. -/
theorem stockcard_adx_cell_truthiness :
    (∀ s : JSObj, showAdxCell s = truthy (resolvedAdx s)) ∧
    (∀ q : ℚ, showAdxCell [("adx", JSVal.num q)] = !(q == 0)) ∧
    showAdxCell stockAdxZero = false ∧
    showAdxCell stockNoAdx = false ∧
    showAdxCell stockAdxZero = showAdxCell stockNoAdx ∧
    showAdxCell stockAdxThirty = true := by
  refine ⟨fun s => rfl, fun q => rfl, by decide, by decide, by decide, by decide⟩

/-- C10: the alert list displayed by AlertsList is a permutation of the
fetched alerts ordered by descending parsed alert time (newest first),
and a missing alert time is read as the Unix epoch `0`. -/
theorem alerts_sorted_desc_by_time :
    ∀ l : List Alert,
      (sortAlertsDesc l).Perm l ∧
      List.Pairwise (fun a b => timeOf b ≤ timeOf a) (sortAlertsDesc l) ∧
      (∀ s ind : String,
        timeOf { symbol := s, indicator := ind, alertTime := none } = 0) := by
  intro l
  refine ⟨List.mergeSort_perm l alertDescLe, ?_, fun s ind => rfl⟩
  have h := @List.sorted_mergeSort Alert alertDescLe alertDescLe_trans
    alertDescLe_total l
  exact h.imp (fun hab => by simpa [alertDescLe] using hab)
